import Mathlib

/-!
Shallow embedding of the avatar tracking-to-rig motion pipeline of the
Animator-Tracking repository, together with theorems settling the frozen
claims about it.

Numeric model: JavaScript numbers are modelled as rationals; the transcendental
library functions (Math.sin, Math.cos, Math.atan2, Math.sqrt) and the constant
Math.PI are abstracted as fields of a MathOps record, with only the bound
abs (sin x) <= 1 and abs (cos x) <= 1 assumed (these hold for every IEEE
implementation of sin and cos on finite inputs).  Timestamps t are the value
of Date.now() in milliseconds; the source reads the clock once per function
call, which is modelled by threading t as an explicit parameter.
-/

namespace AvatarPipeline

/-- Abstract interface for the JavaScript Math library functions used by the
pipeline, over rationals. -/
structure MathOps where
  sin : ℚ → ℚ
  cos : ℚ → ℚ
  atan2 : ℚ → ℚ → ℚ
  sqrt : ℚ → ℚ
  pi : ℚ
  sin_bound : ∀ x, |sin x| ≤ 1
  cos_bound : ∀ x, |cos x| ≤ 1

/-- A body keypoint as produced by the detectors and simulators:
position plus confidence score. -/
structure Keypoint where
  x : ℚ
  y : ℚ
  score : ℚ
deriving DecidableEq

/-- The face tracking channel record used throughout the pipeline
(lastFacePosition, faceData, smoothedFace have this shape). -/
structure FaceData where
  x : ℚ
  y : ℚ
  z : ℚ
  rx : ℚ
  ry : ℚ
  rz : ℚ
deriving DecidableEq

/-- Render-surface dimensions (elements.canvas). -/
structure Canvas where
  width : ℚ
  height : ℚ
deriving DecidableEq

/-- Module-scope mutable state of the tracking manager: the last published
positions and the configured smoothing level. -/
structure TrackerState where
  lastFacePosition : FaceData
  lastBodyPosition : List (Option Keypoint)
  smoothingLevel : ℚ
deriving DecidableEq

/-- JavaScript array indexing bodyPose[i]: out-of-range and null entries both
read as absent. -/
def kpAt (pose : List (Option Keypoint)) (i : ℕ) : Option Keypoint :=
  pose.getD i none

/-- The guard pattern bodyPose[i] && bodyPose[i].score > thr used at every
confidence gate in the source. -/
def kpAbove (pose : List (Option Keypoint)) (i : ℕ) (thr : ℚ) : Bool :=
  match kpAt pose i with
  | some k => decide (thr < k.score)
  | none => false

/-- Math.max lo (Math.min hi v), the clamp idiom used by the source. -/
def clampQ (lo hi v : ℚ) : ℚ := max lo (min hi v)

/-- Math.sign. -/
def signQ (q : ℚ) : ℚ := if 0 < q then 1 else if q < 0 then -1 else 0

/-- Scalar branch of applySmoothing (trackingManager.js lines 477-497 and the
identical copies in the other tracking-manager iterations): an undefined
previous value passes the new value through, otherwise
oldValue * f + newValue * (1 - f). -/
def applySmoothingNum (newValue : ℚ) (oldValue : Option ℚ) (f : ℚ) : ℚ :=
  match oldValue with
  | none => newValue
  | some old => old * f + newValue * (1 - f)

/-- applyAdaptiveSmoothing from the MediaPipe tracking manager
(src/unnamed/part_001 lines 506-523): the base factor is reduced for large
movements, with floors, before the exponential smoothing step. -/
def applyAdaptiveSmoothing (newValue : ℚ) (oldValue : Option ℚ) (base : ℚ) : ℚ :=
  match oldValue with
  | none => newValue
  | some old =>
    let movement := |newValue - old|
    let adaptiveFactor :=
      if 10 < movement then max 0.1 (base - 0.3)
      else if 5 < movement then max 0.2 (base - 0.15)
      else base
    old * adaptiveFactor + newValue * (1 - adaptiveFactor)

/-- simulateBodyPose (trackingManager.js lines 375-445, identical in the
MediaPipe iterations): a 17-entry keypoint array synthesised from the
timestamp alone.  The source stores a plain object at every index 0..16, so
every entry is present; time is Date.now() / 1000.  The source also computes
two unused locals (leftArmAngle, rightArmAngle) which are omitted here. -/
def simulateBodyPose (ops : MathOps) (cv : Canvas) (t : ℚ) :
    List (Option Keypoint) :=
  let centerX := cv.width / 2
  let centerY := cv.height / 2
  let time := t / 1000
  let breathingOffset := ops.sin (time / 2) * 5
  let swayOffset := ops.sin (time / 3) * 10
  [ some { x := centerX + swayOffset, y := centerY - 100 + breathingOffset, score := 0.9 },
    some { x := centerX - 15 + swayOffset, y := centerY - 110 + breathingOffset, score := 0.9 },
    some { x := centerX + 15 + swayOffset, y := centerY - 110 + breathingOffset, score := 0.9 },
    some { x := centerX - 30 + swayOffset, y := centerY - 100 + breathingOffset, score := 0.8 },
    some { x := centerX + 30 + swayOffset, y := centerY - 100 + breathingOffset, score := 0.8 },
    some { x := centerX - 70 + swayOffset * 0.5, y := centerY - 50 + breathingOffset, score := 0.9 },
    some { x := centerX + 70 + swayOffset * 0.5, y := centerY - 50 + breathingOffset, score := 0.9 },
    some { x := centerX - 85 + ops.sin (time / 1.5 - 0.2) * 15, y := centerY + 20 + ops.cos (time / 2) * 5, score := 0.8 },
    some { x := centerX + 85 + ops.sin (time / 1.5 - 0.2) * 15, y := centerY + 20 + ops.cos (time / 2) * 5, score := 0.8 },
    some { x := centerX - 95 + ops.sin (time / 1.2) * 25, y := centerY + 70 + ops.cos (time / 1.8) * 10, score := 0.7 },
    some { x := centerX + 95 + ops.sin (time / 1.2) * 25, y := centerY + 70 + ops.cos (time / 1.8) * 10, score := 0.7 },
    some { x := centerX - 40 + swayOffset * 0.2, y := centerY + 50, score := 0.8 },
    some { x := centerX + 40 + swayOffset * 0.2, y := centerY + 50, score := 0.8 },
    some { x := centerX - 45, y := centerY + 120, score := 0.7 },
    some { x := centerX + 45, y := centerY + 120, score := 0.7 },
    some { x := centerX - 50, y := centerY + 190, score := 0.6 },
    some { x := centerX + 50, y := centerY + 190, score := 0.6 } ]

/-- simulateFaceDetection (trackingManager.js lines 448-474, identical in the
MediaPipe iterations): sinusoidal idle head motion, with an occasional glance
term added to ry and an occasional nod term added to rx.  The conditional
in-place additions of the source are rendered as adding a term that is zero
when the trigger condition fails. -/
def simulateFaceDetection (ops : MathOps) (t : ℚ) : FaceData :=
  let time := t / 1000
  let glance := if 0.9 < ops.sin (time / 10) then ops.sin (time * 5) * 20 else 0
  let nod := if 0.9 < ops.sin (time / 15) then ops.sin (time * 6) * 15 else 0
  { x := ops.sin (time / 1.5) * 15
    y := ops.cos (time / 2) * 10
    z := ops.sin (time / 3) * 0.1 + 0.1
    rx := ops.sin (time / 2.5) * 10 + nod
    ry := ops.sin (time / 2) * 15 + glance
    rz := ops.sin (time / 4) * 5 }

/-- The two procedural fallback generators as seen from module scope: the
JavaScript functions live in the tracking-manager module, where the mutable
state st (lastBodyPosition, lastFacePosition, the smoothing configuration) is
freely accessible, but their translated bodies read only the clock and the
canvas dimensions. -/
def fallbackGenerators (ops : MathOps) (cv : Canvas) (t : ℚ)
    (_st : TrackerState) : List (Option Keypoint) × FaceData :=
  (simulateBodyPose ops cv t, simulateFaceDetection ops t)

/-- A face-mesh landmark position. -/
structure FacePoint where
  x : ℚ
  y : ℚ
deriving DecidableEq

/-- The ten face-mesh landmarks resolved by processMediaPipeFace
(src/unnamed/part_001 lines 368-377) through findKeypoint, which returns the
landmark by name, else by standard index, else null; each field is the
already-resolved result of that lookup. -/
structure FaceLandmarks where
  noseTip : Option FacePoint
  foreHead : Option FacePoint
  leftEye : Option FacePoint
  rightEye : Option FacePoint
  leftCheek : Option FacePoint
  rightCheek : Option FacePoint
  leftMouth : Option FacePoint
  rightMouth : Option FacePoint
  topMouth : Option FacePoint
  bottomMouth : Option FacePoint
deriving DecidableEq

/-- Result of the face normalization: the clamped face channel record plus the
mouth openness written to appState when all four mouth landmarks are present. -/
structure FaceNormResult where
  data : FaceData
  mouthOpenness : Option ℚ
deriving DecidableEq

/-- Face normalization of processMediaPipeFace (src/unnamed/part_001 lines
347-457): position from the face center, depth from the inter-eye distance,
roll from the eye slope, yaw from the eye-distance ratio, pitch from the
nose-to-forehead vector (or from mouth height when the forehead landmark is
absent), followed by the fixed clamps of lines 451-457.  The leftCheek and
rightCheek landmarks are resolved by the source but never read. -/
def faceNormalize (ops : MathOps) (videoWidth videoHeight : ℚ)
    (lm : FaceLandmarks) : FaceNormResult :=
  let centerX := videoWidth / 2
  let centerY := videoHeight / 2
  let faceCenterX :=
    match lm.noseTip with
    | some nt => nt.x
    | none =>
      match lm.leftEye, lm.rightEye with
      | some l, some r => (l.x + r.x) / 2
      | _, _ => centerX
  let faceCenterY :=
    match lm.noseTip with
    | some nt => nt.y
    | none =>
      match lm.leftEye, lm.rightEye with
      | some l, some r => (l.y + r.y) / 2
      | _, _ => centerY
  let faceMovementScale : ℚ := 2.5
  let x0 := ((faceCenterX - centerX) / centerX) * 20 * faceMovementScale
  let y0 := ((faceCenterY - centerY) / centerY) * 15 * faceMovementScale
  let z0 :=
    match lm.leftEye, lm.rightEye with
    | some l, some r =>
      let eyeDistance := ops.sqrt ((r.x - l.x) ^ 2 + (r.y - l.y) ^ 2)
      (eyeDistance / videoWidth - 0.09) * 3
    | _, _ => 0
  let rot :=
    match lm.leftEye, lm.rightEye with
    | some l, some r =>
      let eyeDeltaX := r.x - l.x
      let eyeDeltaY := r.y - l.y
      let rz0 := ops.atan2 eyeDeltaY eyeDeltaX * (180 / ops.pi)
      let standardEyeDistance := videoWidth * 0.12
      let currentEyeDistance := |eyeDeltaX|
      let eyeDistRat := currentEyeDistance / standardEyeDistance
      let ry0 := (1 - eyeDistRat) * 45 * signQ (centerX - faceCenterX)
      let rxA :=
        match lm.noseTip, lm.foreHead with
        | some nt, some fh =>
          -(ops.atan2 (fh.y - nt.y) (fh.x - nt.x) * (180 / ops.pi)) * 1.5
        | _, _ => 0
      let rx0 :=
        match lm.foreHead, lm.topMouth, lm.bottomMouth with
        | none, some tm, some bm =>
          let mouthHeight := |tm.y - bm.y|
          let normalMouthHeight := videoHeight * 0.03
          (1 - mouthHeight / normalMouthHeight) * 30
        | _, _, _ => rxA
      (rx0, ry0, rz0)
    | _, _ => ((0 : ℚ), (0 : ℚ), (0 : ℚ))
  let mouthOpen :=
    match lm.leftMouth, lm.rightMouth, lm.topMouth, lm.bottomMouth with
    | some lMo, some rMo, some tMo, some bMo =>
      let mouthWidth := |rMo.x - lMo.x|
      let mouthHeight := |bMo.y - tMo.y|
      let mouthRat := mouthHeight / mouthWidth
      some (min 1 (max 0 (mouthRat * 3)))
    | _, _, _, _ => none
  { data :=
      { x := clampQ (-40) 40 x0
        y := clampQ (-40) 40 y0
        z := clampQ (-0.3) 0.3 z0
        rx := clampQ (-30) 30 rot.1
        ry := clampQ (-40) 40 rot.2.1
        rz := clampQ (-20) 20 rot.2.2 }
    mouthOpenness := mouthOpen }

/-- One frame of processMediaPipeFace (src/unnamed/part_001 lines 347-476) as
a function from the incoming face detection and the previous published face
state to the new published face state: normalize-and-clamp when keypoints are
present, else the simulated face, then per-channel adaptive smoothing with the
configured level, the depth channel using level + 0.1. -/
def processMediaPipeFaceStep (ops : MathOps) (videoWidth videoHeight : ℚ)
    (t : ℚ) (face : Option FaceLandmarks) (smoothingLevel : ℚ)
    (last : FaceData) : FaceData :=
  let faceData :=
    match face with
    | some lm => (faceNormalize ops videoWidth videoHeight lm).data
    | none => simulateFaceDetection ops t
  { x := applyAdaptiveSmoothing faceData.x (some last.x) smoothingLevel
    y := applyAdaptiveSmoothing faceData.y (some last.y) smoothingLevel
    z := applyAdaptiveSmoothing faceData.z (some last.z) (smoothingLevel + 0.1)
    rx := applyAdaptiveSmoothing faceData.rx (some last.rx) smoothingLevel
    ry := applyAdaptiveSmoothing faceData.ry (some last.ry) smoothingLevel
    rz := applyAdaptiveSmoothing faceData.rz (some last.rz) smoothingLevel }

/-- The SVG attributes of the avatar written by the renderer, as one record.
Transforms are stored as their numeric parameters: rotations as
(angle, centerX, centerY), translations and scales as pairs.  The leftArm and
rightArm group transforms are Option values, none standing for the empty
transform string written by updateAvatarBody. -/
structure AvatarDom where
  avatarGroupTranslate : ℚ × ℚ
  headTranslate : ℚ × ℚ
  headScale : ℚ
  headRot : ℚ
  leftEyeRy : ℚ
  rightEyeRy : ℚ
  leftEyeCx : ℚ
  rightEyeCx : ℚ
  leftEyebrow : ℚ × ℚ
  rightEyebrow : ℚ × ℚ
  mouthRy : ℚ
  mouthRx : ℚ
  leftShoulderCx : ℚ
  rightShoulderCx : ℚ
  leftShoulderCy : ℚ
  rightShoulderCy : ℚ
  leftArmGroup : Option (ℚ × ℚ × ℚ)
  rightArmGroup : Option (ℚ × ℚ × ℚ)
  leftUpperArmAngle : ℚ
  leftUpperArmCx : ℚ
  leftUpperArmCy : ℚ
  leftForearmTranslate : ℚ × ℚ
  leftForearmAngle : ℚ
  rightUpperArmAngle : ℚ
  rightUpperArmCx : ℚ
  rightUpperArmCy : ℚ
  rightForearmTranslate : ℚ × ℚ
  rightForearmAngle : ℚ
  upperBodyScaleX : ℚ
  upperBodyScaleY : ℚ
  upperBodyRot : ℚ
  neckY : ℚ
  neckWidth : ℚ
  neckX : ℚ
deriving DecidableEq

/-- Shoulder placement block of updateAvatarBody (avatarRenderer.js lines
129-169): the three local coordinates leftShoulderX, rightShoulderX, shoulderY
and whether the gate passed (in which case the SVG shoulder attributes are
written).  The source also computes an unused shoulderScaleFactor, omitted. -/
structure ShoulderPlacement where
  leftX : ℚ
  rightX : ℚ
  y : ℚ
  written : Bool
deriving DecidableEq

def shoulderPlacementOf (cv : Canvas) (pose : List (Option Keypoint)) :
    ShoulderPlacement :=
  match kpAt pose 5, kpAt pose 6 with
  | some p5, some p6 =>
    if 0.3 < p5.score ∧ 0.3 < p6.score then
      let videoHeight := cv.height
      let centerY := videoHeight / 2
      let shoulderMidX := (p5.x + p6.x) / 2
      let shoulderMidY := (p5.y + p6.y) / 2
      let shoulderWidth := |p6.x - p5.x|
      let leftShoulderX := -85 + ((p5.x - shoulderMidX) / (shoulderWidth / 2)) * 40
      let rightShoulderX := 85 + ((p6.x - shoulderMidX) / (shoulderWidth / 2)) * 40
      let shoulderDiff := shoulderMidY - centerY
      let shoulderY := 50 + (shoulderDiff / (videoHeight / 4)) * 30
      { leftX := leftShoulderX, rightX := rightShoulderX,
        y := max 30 (min 80 shoulderY), written := true }
    else { leftX := -85, rightX := 85, y := 50, written := false }
  | _, _ => { leftX := -85, rightX := 85, y := 50, written := false }

/-- Left upper-arm angle (avatarRenderer.js lines 177-199): atan2 from
shoulder to elbow clamped to plus-minus 80 degrees when elbow and shoulder are
confidently detected, else the subtle breathing fallback. -/
def leftArmAngleOf (ops : MathOps) (pose : List (Option Keypoint)) (t : ℚ) : ℚ :=
  match kpAt pose 7, kpAt pose 5 with
  | some p7, some p5 =>
    if 0.3 < p7.score ∧ 0.3 < p5.score then
      clampQ (-80) 80 (ops.atan2 (p7.y - p5.y) (p7.x - p5.x) * (180 / ops.pi))
    else ops.sin (t / 1500) * 8
  | _, _ => ops.sin (t / 1500) * 8

/-- Left forearm angle (avatarRenderer.js lines 189-195): atan2 from elbow to
wrist minus the (already clamped) upper-arm angle, clamped to plus-minus 90
degrees; zero when the wrist (or the arm itself) is not confidently
detected. -/
def leftForearmAngleOf (ops : MathOps) (pose : List (Option Keypoint)) (t : ℚ) : ℚ :=
  match kpAt pose 7, kpAt pose 5, kpAt pose 9 with
  | some p7, some p5, some p9 =>
    if 0.3 < p7.score ∧ 0.3 < p5.score ∧ 0.3 < p9.score then
      clampQ (-90) 90
        (ops.atan2 (p9.y - p7.y) (p9.x - p7.x) * (180 / ops.pi) -
          leftArmAngleOf ops pose t)
    else 0
  | _, _, _ => 0

/-- Right upper-arm angle (avatarRenderer.js lines 201-223), mirror of the
left with the opposite-phase breathing fallback. -/
def rightArmAngleOf (ops : MathOps) (pose : List (Option Keypoint)) (t : ℚ) : ℚ :=
  match kpAt pose 8, kpAt pose 6 with
  | some p8, some p6 =>
    if 0.3 < p8.score ∧ 0.3 < p6.score then
      clampQ (-80) 80 (ops.atan2 (p8.y - p6.y) (p8.x - p6.x) * (180 / ops.pi))
    else -(ops.sin (t / 1500) * 8)
  | _, _ => -(ops.sin (t / 1500) * 8)

/-- Right forearm angle (avatarRenderer.js lines 213-219). -/
def rightForearmAngleOf (ops : MathOps) (pose : List (Option Keypoint)) (t : ℚ) : ℚ :=
  match kpAt pose 8, kpAt pose 6, kpAt pose 10 with
  | some p8, some p6, some p10 =>
    if 0.3 < p8.score ∧ 0.3 < p6.score ∧ 0.3 < p10.score then
      clampQ (-90) 90
        (ops.atan2 (p10.y - p8.y) (p10.x - p8.x) * (180 / ops.pi) -
          rightArmAngleOf ops pose t)
    else 0
  | _, _, _ => 0

/-- Torso rotation (avatarRenderer.js lines 272-281): shoulder-line slope
clamped to plus-minus 20 degrees when both shoulders are confidently detected,
else zero. -/
def torsoRotationOf (ops : MathOps) (pose : List (Option Keypoint)) : ℚ :=
  match kpAt pose 5, kpAt pose 6 with
  | some p5, some p6 =>
    if 0.3 < p5.score ∧ 0.3 < p6.score then
      clampQ (-20) 20 (ops.atan2 (p6.y - p5.y) (p6.x - p5.x) * (180 / ops.pi))
    else 0
  | _, _ => 0

/-- Values written to the neck element (avatarRenderer.js lines 299-326). -/
structure NeckVals where
  y : ℚ
  widthAdj : Option (ℚ × ℚ)
deriving DecidableEq

def neckOf (pose : List (Option Keypoint)) (cv : Canvas) (shoulderY : ℚ) :
    Option NeckVals :=
  match kpAt pose 0 with
  | some p0 =>
    if 0.3 < p0.score then
      let videoHeight := cv.height
      let shoulderMidY :=
        match kpAt pose 5, kpAt pose 6 with
        | some p5, some p6 => (p5.y + p6.y) / 2
        | _, _ => shoulderY
      let neckY := min 0 (shoulderY - 30 + ((p0.y - shoulderMidY) / (videoHeight / 8)) * 20)
      let widthAdj :=
        match kpAt pose 3, kpAt pose 4 with
        | some p3, some p4 =>
          if 0.3 < p3.score ∧ 0.3 < p4.score then
            let earWidth := |p4.x - p3.x|
            let normalEarWidth := videoHeight * 0.15
            let widthRat := min 1.2 (max 0.8 (earWidth / normalEarWidth))
            some (40 * widthRat, -20 * widthRat)
          else none
        | _, _ => none
      some { y := neckY, widthAdj := widthAdj }
    else none
  | none => none

/-- updateAvatarBody (avatarRenderer.js lines 119-334): the per-frame body
retargeting pass over the previous DOM state d.  A null pose, fewer than 5
keypoints, or uninitialized arm and torso references (refsReady = false)
return the DOM unchanged.  The detailed upper-arm and forearm elements always
exist in the generated SVG, so the detailed two-segment branch is the one
modelled; the body of the source never throws in this pure model, so the
catch-block fallback animation is unreachable and not modelled. -/
def updateAvatarBody (ops : MathOps) (cv : Canvas) (t : ℚ)
    (bodyPose : Option (List (Option Keypoint))) (refsReady : Bool)
    (d : AvatarDom) : AvatarDom :=
  match bodyPose with
  | none => d
  | some pose =>
    if pose.length < 5 ∨ refsReady = false then d
    else
      let sh := shoulderPlacementOf cv pose
      let lAngle := leftArmAngleOf ops pose t
      let lFore := leftForearmAngleOf ops pose t
      let rAngle := rightArmAngleOf ops pose t
      let rFore := rightForearmAngleOf ops pose t
      let lElbowX := sh.leftX + ops.cos (lAngle * ops.pi / 180) * 80
      let lElbowY := sh.y + ops.sin (lAngle * ops.pi / 180) * 80
      let rElbowX := sh.rightX + ops.cos (rAngle * ops.pi / 180) * 80
      let rElbowY := sh.y + ops.sin (rAngle * ops.pi / 180) * 80
      let torso := torsoRotationOf ops pose
      let breathe := ops.sin (t / 3000)
      let torsoScale := 1 + breathe * 0.025
      let swayX := 1 + ops.sin (t / 4500) * 0.01
      let swayY := 1 + ops.cos (t / 4500) * 0.01
      let neck := neckOf pose cv sh.y
      { d with
        leftShoulderCx := if sh.written then sh.leftX else d.leftShoulderCx
        rightShoulderCx := if sh.written then sh.rightX else d.rightShoulderCx
        leftShoulderCy := if sh.written then sh.y else d.leftShoulderCy
        rightShoulderCy := if sh.written then sh.y else d.rightShoulderCy
        leftArmGroup := none
        leftUpperArmAngle := lAngle
        leftUpperArmCx := sh.leftX
        leftUpperArmCy := sh.y
        leftForearmTranslate := (lElbowX - sh.leftX, lElbowY - sh.y)
        leftForearmAngle := lFore
        rightArmGroup := none
        rightUpperArmAngle := rAngle
        rightUpperArmCx := sh.rightX
        rightUpperArmCy := sh.y
        rightForearmTranslate := (rElbowX - sh.rightX, rElbowY - sh.y)
        rightForearmAngle := rFore
        upperBodyScaleX := torsoScale * swayX
        upperBodyScaleY := torsoScale * swayY
        upperBodyRot := torso
        neckY := match neck with | some nv => nv.y | none => d.neckY
        neckWidth :=
          match neck with
          | some nv => match nv.widthAdj with | some wa => wa.1 | none => d.neckWidth
          | none => d.neckWidth
        neckX :=
          match neck with
          | some nv => match nv.widthAdj with | some wa => wa.2 | none => d.neckX
          | none => d.neckX }

/-- Catch-block of processMediaPipePose (src/unnamed/part_001 lines 329-344):
on a processing exception a fresh simulated pose is generated and, when a
previous body position exists, each keypoint position is blended 30 percent
simulated with 70 percent previous before becoming the new state. -/
def poseErrorUpdate (ops : MathOps) (cv : Canvas) (t : ℚ)
    (last : List (Option Keypoint)) : List (Option Keypoint) :=
  let bodyPose := simulateBodyPose ops cv t
  if 0 < last.length then
    bodyPose.mapIdx fun i p =>
      match kpAt last i, p with
      | some l, some k =>
        some { x := k.x * 0.3 + l.x * 0.7, y := k.y * 0.3 + l.y * 0.7,
               score := k.score }
      | _, _ => p
  else bodyPose

/-- Catch-block of processMediaPipeFace (src/unnamed/part_001 lines 477-492):
each face channel is blended 30 percent simulated with 70 percent previous
(lastFacePosition is always a populated object in the source, so the truthy
guard always passes). -/
def faceErrorUpdate (ops : MathOps) (t : ℚ) (last : FaceData) : FaceData :=
  let f := simulateFaceDetection ops t
  { x := f.x * 0.3 + last.x * 0.7
    y := f.y * 0.3 + last.y * 0.7
    z := f.z * 0.3 + last.z * 0.7
    rx := f.rx * 0.3 + last.rx * 0.7
    ry := f.ry * 0.3 + last.ry * 0.7
    rz := f.rz * 0.3 + last.rz * 0.7 }

/-- The three failure situations handled by processTracking and the
processMediaPipe handlers in src/unnamed/part_001: the detector ran but found
nothing (lines 177-180 and 192-195), the detector call threw (lines 196-203),
or the result processing threw (the catch blocks of processMediaPipePose and
processMediaPipeFace). -/
inductive DetectFailure where
  | noDetection
  | detectorThrew
  | processingThrew
deriving DecidableEq

/-- New lastBodyPosition on each failure situation, per src/unnamed/part_001:
both the no-detection path and the detector-error path assign the simulated
pose directly; only the processing-error catch blends with the previous
state. -/
def bodyFallbackUpdate (ops : MathOps) (cv : Canvas) (t : ℚ)
    (last : List (Option Keypoint)) : DetectFailure → List (Option Keypoint)
  | .noDetection => simulateBodyPose ops cv t
  | .detectorThrew => simulateBodyPose ops cv t
  | .processingThrew => poseErrorUpdate ops cv t last

/-- New lastFacePosition on each failure situation, per src/unnamed/part_001
lines 192-203 and 477-492. -/
def faceFallbackUpdate (ops : MathOps) (t : ℚ) (last : FaceData) :
    DetectFailure → FaceData
  | .noDetection => simulateFaceDetection ops t
  | .detectorThrew => simulateFaceDetection ops t
  | .processingThrew => faceErrorUpdate ops t last

/-- resetAvatarPosition (avatarRenderer.js lines 450-467): writes the neutral
pose attributes; the element references always exist once the avatar is
initialized, so the early-return guard is not modelled.  The JavaScript
fallbacks canvas.width/2 || 320 and canvas.height/2 || 240 catch a zero
dimension. -/
def resetAvatarPosition (cv : Canvas) (d : AvatarDom) : AvatarDom :=
  let tx := if cv.width / 2 = 0 then 320 else cv.width / 2
  let ty := if cv.height / 2 = 0 then 240 else cv.height / 2
  { d with
    avatarGroupTranslate := (tx, ty)
    headTranslate := (0, 0)
    headScale := 1
    headRot := 0
    leftEyeRy := 15
    rightEyeRy := 15
    leftEyeCx := -25
    rightEyeCx := 25
    leftEyebrow := (-70, -70)
    rightEyebrow := (-70, -70)
    mouthRy := 8
    mouthRx := 20
    leftArmGroup := some (0, -85, 50)
    rightArmGroup := some (0, 85, 50)
    upperBodyScaleX := 1
    upperBodyScaleY := 1
    upperBodyRot := 0 }

/-- Session controller state: the tracking-manager module flags, the pending
animation-frame callback handle, the canvas, the published tracker state and
the avatar DOM. -/
structure SessionState where
  trackingActive : Bool
  isTracking : Bool
  animationFrameId : Option ℕ
  canvas : Canvas
  tracker : TrackerState
  dom : AvatarDom
deriving DecidableEq

/-- setupCanvas (trackingManager.js lines 260-274): adopts the video
dimensions with 640 by 480 fallback for zero or missing dimensions, and
recenters the avatar group. -/
def setupCanvas (videoWidth videoHeight : ℚ) (s : SessionState) : SessionState :=
  let w := if videoWidth = 0 then 640 else videoWidth
  let h := if videoHeight = 0 then 480 else videoHeight
  { s with
    canvas := { width := w, height := h }
    dom := { s.dom with avatarGroupTranslate := (w / 2, h / 2) } }

/-- One pass of trackingLoop (trackingManager.js lines 277-313 and
src/unnamed/part_001 lines 126-159): an inactive session returns immediately
without scheduling; otherwise, whether the video is not ready, the frame body
succeeds (publishing the new tracker state), or the frame body throws (the
catch logs and leaves the published state untouched), the next frame callback
is scheduled.  The frame body is passed as an Except value frame. -/
def trackingLoopStep (videoReady : Bool) (frame : Except Unit TrackerState)
    (nextId : ℕ) (s : SessionState) : SessionState :=
  if s.trackingActive = false then s
  else if videoReady = false then { s with animationFrameId := some nextId }
  else
    match frame with
    | .ok tr => { s with tracker := tr, animationFrameId := some nextId }
    | .error _ => { s with animationFrameId := some nextId }

/-- startTracking (trackingManager.js lines 220-236): returns immediately when
already active; otherwise raises the flags, sets up the canvas and runs the
first tracking-loop pass (which schedules the frame callback).  UI-only
side effects (button states, status text) are not modelled. -/
def startTracking (videoWidth videoHeight : ℚ) (videoReady : Bool)
    (frame : Except Unit TrackerState) (nextId : ℕ) (s : SessionState) :
    SessionState :=
  if s.trackingActive then s
  else
    trackingLoopStep videoReady frame nextId
      (setupCanvas videoWidth videoHeight
        { s with trackingActive := true, isTracking := true })

/-- stopTracking (trackingManager.js lines 239-257): clears the flags, cancels
any pending frame callback and resets the avatar.  UI-only side effects are
not modelled. -/
def stopTracking (s : SessionState) : SessionState :=
  { s with
    trackingActive := false
    isTracking := false
    animationFrameId := none
    dom := resetAvatarPosition s.canvas s.dom }

/-- The neutral pose, read off the attribute writes of resetAvatarPosition. -/
def IsNeutralPose (d : AvatarDom) : Prop :=
  d.headTranslate = (0, 0) ∧ d.headScale = 1 ∧ d.headRot = 0 ∧
  d.leftEyeRy = 15 ∧ d.rightEyeRy = 15 ∧ d.leftEyeCx = -25 ∧ d.rightEyeCx = 25 ∧
  d.leftEyebrow = (-70, -70) ∧ d.rightEyebrow = (-70, -70) ∧
  d.mouthRy = 8 ∧ d.mouthRx = 20 ∧
  d.leftArmGroup = some (0, -85, 50) ∧ d.rightArmGroup = some (0, 85, 50) ∧
  d.upperBodyScaleX = 1 ∧ d.upperBodyScaleY = 1 ∧ d.upperBodyRot = 0

/-- The documented clamp ranges of the rotation channels written by
updateAvatarBody: upper-arm angles within 80 degrees, forearm angles within
90 degrees, torso rotation within 20 degrees. -/
def BodyDomInRange (d : AvatarDom) : Prop :=
  |d.leftUpperArmAngle| ≤ 80 ∧ |d.rightUpperArmAngle| ≤ 80 ∧
  |d.leftForearmAngle| ≤ 90 ∧ |d.rightForearmAngle| ≤ 90 ∧
  |d.upperBodyRot| ≤ 20

/-- The documented clamp ranges of the face rotation and depth channels
(src/unnamed/part_001 lines 454-457). -/
def FaceInRange (f : FaceData) : Prop :=
  |f.rx| ≤ 30 ∧ |f.ry| ≤ 40 ∧ |f.rz| ≤ 20 ∧ |f.z| ≤ 0.3

/-- Concrete Math implementation with constant zero trig, used to evaluate
the embedding at concrete inputs. -/
def zeroOps : MathOps where
  sin := fun _ => 0
  cos := fun _ => 0
  atan2 := fun _ _ => 0
  sqrt := fun _ => 0
  pi := 3.141592653589793
  sin_bound := fun _ => by norm_num
  cos_bound := fun _ => by norm_num

/-- Concrete Math implementation with constant one trig. -/
def oneOps : MathOps where
  sin := fun _ => 1
  cos := fun _ => 1
  atan2 := fun _ _ => 0
  sqrt := fun _ => 0
  pi := 3.141592653589793
  sin_bound := fun _ => by norm_num
  cos_bound := fun _ => by norm_num

/-- The initial avatar DOM, read off the generated SVG markup of
createAvatarSVG. -/
def domZero : AvatarDom where
  avatarGroupTranslate := (320, 240)
  headTranslate := (0, 0)
  headScale := 1
  headRot := 0
  leftEyeRy := 15
  rightEyeRy := 15
  leftEyeCx := -25
  rightEyeCx := 25
  leftEyebrow := (-70, -70)
  rightEyebrow := (-70, -70)
  mouthRy := 8
  mouthRx := 20
  leftShoulderCx := -85
  rightShoulderCx := 85
  leftShoulderCy := 50
  rightShoulderCy := 50
  leftArmGroup := none
  rightArmGroup := none
  leftUpperArmAngle := 0
  leftUpperArmCx := -85
  leftUpperArmCy := 50
  leftForearmTranslate := (0, 0)
  leftForearmAngle := 0
  rightUpperArmAngle := 0
  rightUpperArmCx := 85
  rightUpperArmCy := 50
  rightForearmTranslate := (0, 0)
  rightForearmAngle := 0
  upperBodyScaleX := 1
  upperBodyScaleY := 1
  upperBodyRot := 0
  neckY := 0
  neckWidth := 40
  neckX := -20

/-- The initial face state lastFacePosition of the tracking manager. -/
def faceZero : FaceData where
  x := 0
  y := 0
  z := 0
  rx := 0
  ry := 0
  rz := 0

/-- Published face state across frames when the configured smoothing level is
0.95, every frame sees a detected face object without keypoints (so the
simulated face is smoothed in) and the clock reads zero, starting from the
initial lastFacePosition.  Used to exhibit the escape of the depth channel. -/
def faceTrace095 : ℕ → FaceData
  | 0 => faceZero
  | n + 1 => processMediaPipeFaceStep oneOps 640 480 0 none 0.95 (faceTrace095 n)

/-- A one-entry previous body position used to separate the snap and blend
behaviours at a concrete state. -/
def lastBodyOne : List (Option Keypoint) :=
  [some { x := 0, y := 0, score := 0.9 }]

/-- A concrete pose whose shoulders are confidently detected. -/
def posePass : List (Option Keypoint) :=
  [none, none, none, none, none,
   some { x := 200, y := 100, score := 0.9 },
   some { x := 400, y := 120, score := 0.9 }]

/-- A concrete tracker state. -/
def trackerZero : TrackerState where
  lastFacePosition := faceZero
  lastBodyPosition := []
  smoothingLevel := 0.7

/-- A concrete active session state. -/
def sessionActive : SessionState where
  trackingActive := true
  isTracking := true
  animationFrameId := some 7
  canvas := { width := 640, height := 480 }
  tracker := trackerZero
  dom := domZero

/-- Spec-side restatement of claim C2, written from the claim text: if
abs (new - old) exceeds the large threshold 10 the factor is base - 0.3
floored at 0.1; if it exceeds the medium threshold 5 the factor is
base - 0.15 floored at 0.2; otherwise the base factor is used; the result is
old * factor + new * (1 - factor). -/
def adaptiveSmoothingSpec (newValue oldValue base : ℚ) : ℚ :=
  let factor :=
    if 10 < |newValue - oldValue| then max (base - 0.3) 0.1
    else if 5 < |newValue - oldValue| then max (base - 0.15) 0.2
    else base
  oldValue * factor + newValue * (1 - factor)

end AvatarPipeline

namespace AvatarPipeline

theorem smoothing_step_contraction (old newv f : ℚ) (h0 : 0 ≤ f) (h2 : f ≤ 2) :
    |old * f + newv * (1 - f) - old| ≤ |newv - old| := by
  have key : old * f + newv * (1 - f) - old = (newv - old) * (1 - f) := by ring
  rw [key, abs_mul]
  have hb : |1 - f| ≤ 1 := abs_le.mpr ⟨by linarith, by linarith⟩
  exact mul_le_of_le_one_right (abs_nonneg _) hb

/-- C1: for every scalar channel, defined previous value, raw candidate and
smoothing factor the pipeline can produce (a configured level in the range 0
to 0.95, possibly adjusted by the adaptive rule), the smoothing step moves the
output by at most the raw delta: both applyAdaptiveSmoothing and the plain
scalar applySmoothing satisfy
abs (smoothed - lastValue) <= abs (raw - lastValue). -/
theorem c1_smoothing_contraction (base old newv : ℚ)
    (h0 : 0 ≤ base) (h95 : base ≤ 0.95) :
    |applyAdaptiveSmoothing newv (some old) base - old| ≤ |newv - old| ∧
    |applySmoothingNum newv (some old) base - old| ≤ |newv - old| := by
  constructor
  · simp only [applyAdaptiveSmoothing]
    split
    · exact smoothing_step_contraction old newv _
        (le_trans (by norm_num) (le_max_left (0.1 : ℚ) (base - 0.3)))
        (max_le (by norm_num) (by linarith))
    · split
      · exact smoothing_step_contraction old newv _
          (le_trans (by norm_num) (le_max_left (0.2 : ℚ) (base - 0.15)))
          (max_le (by norm_num) (by linarith))
      · exact smoothing_step_contraction old newv base h0 (by linarith)
  · simp only [applySmoothingNum]
    exact smoothing_step_contraction old newv base h0 (by linarith)

theorem c1_witness :
    |applyAdaptiveSmoothing 20 (some 0) 0.5 - 0| ≤ |20 - 0| ∧
    |applySmoothingNum 20 (some 0) 0.5 - 0| ≤ |20 - 0| :=
  c1_smoothing_contraction 0.5 0 20 (by norm_num) (by norm_num)

/-- C3: the procedural fallback generators are deterministic functions of the
timestamp (purity of the embedding: the clock is read once per call and
threaded as t) and their output is independent of the tracking-manager module
state, so they never reference lastBodyPosition, lastFacePosition or the
smoothing state: for any two module states the keypoint set and face values
produced at the same timestamp are identical. -/
theorem c3_fallback_state_independence (ops : MathOps) (cv : Canvas) (t : ℚ)
    (st1 st2 : TrackerState) :
    fallbackGenerators ops cv t st1 = fallbackGenerators ops cv t st2 := rfl

/-- C2: applyAdaptiveSmoothing computes exactly the effective factor described
by the claim (base - 0.3 floored at 0.1 past the large threshold 10,
base - 0.15 floored at 0.2 past the medium threshold 5, else the base) and
returns old * factor + new * (1 - factor). -/
theorem c2_adaptive_matches_spec (n o b : ℚ) :
    applyAdaptiveSmoothing n (some o) b = adaptiveSmoothingSpec n o b := by
  simp only [applyAdaptiveSmoothing, adaptiveSmoothingSpec, max_comm]

theorem abs_clampQ_le (c v : ℚ) (hc : 0 ≤ c) : |clampQ (-c) c v| ≤ c := by
  unfold clampQ
  rw [abs_le]
  exact ⟨le_max_left _ _, max_le (by linarith) (min_le_left _ _)⟩

theorem abs_mul_sin_le (s k : ℚ) (hs : |s| ≤ 1) (hk : 0 ≤ k) : |s * k| ≤ k := by
  rw [abs_mul, abs_of_nonneg hk]
  exact mul_le_of_le_one_left hk hs

theorem convex_combo_abs_le (c old newv f : ℚ) (hold : |old| ≤ c)
    (hnew : |newv| ≤ c) (hf0 : 0 ≤ f) (hf1 : f ≤ 1) :
    |old * f + newv * (1 - f)| ≤ c := by
  rw [abs_le] at hold hnew ⊢
  have h1 : 0 ≤ (c - old) * f := mul_nonneg (by linarith) hf0
  have h2 : 0 ≤ (c - newv) * (1 - f) := mul_nonneg (by linarith) (by linarith)
  have h3 : 0 ≤ (old + c) * f := mul_nonneg (by linarith) hf0
  have h4 : 0 ≤ (newv + c) * (1 - f) := mul_nonneg (by linarith) (by linarith)
  constructor <;> nlinarith

theorem adaptive_abs_le (c newv old base : ℚ) (hold : |old| ≤ c)
    (hnew : |newv| ≤ c) (h0 : 0 ≤ base) (h1 : base ≤ 1) :
    |applyAdaptiveSmoothing newv (some old) base| ≤ c := by
  simp only [applyAdaptiveSmoothing]
  split
  · exact convex_combo_abs_le c old newv _ hold hnew
      (le_trans (by norm_num) (le_max_left (0.1 : ℚ) (base - 0.3)))
      (max_le (by norm_num) (by linarith))
  · split
    · exact convex_combo_abs_le c old newv _ hold hnew
        (le_trans (by norm_num) (le_max_left (0.2 : ℚ) (base - 0.15)))
        (max_le (by norm_num) (by linarith))
    · exact convex_combo_abs_le c old newv base hold hnew h0 h1

theorem faceNormalize_inRange (ops : MathOps) (vW vH : ℚ) (lm : FaceLandmarks) :
    FaceInRange (faceNormalize ops vW vH lm).data := by
  refine ⟨?_, ?_, ?_, ?_⟩
  · exact abs_clampQ_le 30 _ (by norm_num)
  · exact abs_clampQ_le 40 _ (by norm_num)
  · exact abs_clampQ_le 20 _ (by norm_num)
  · exact abs_clampQ_le 0.3 _ (by norm_num)

theorem simulateFaceDetection_inRange (ops : MathOps) (t : ℚ) :
    FaceInRange (simulateFaceDetection ops t) := by
  have hnod : |(if 0.9 < ops.sin (t / 1000 / 15)
      then ops.sin (t / 1000 * 6) * 15 else 0)| ≤ 15 := by
    split
    · exact abs_mul_sin_le _ _ (ops.sin_bound _) (by norm_num)
    · norm_num
  have hglance : |(if 0.9 < ops.sin (t / 1000 / 10)
      then ops.sin (t / 1000 * 5) * 20 else 0)| ≤ 20 := by
    split
    · exact abs_mul_sin_le _ _ (ops.sin_bound _) (by norm_num)
    · norm_num
  refine ⟨?_, ?_, ?_, ?_⟩
  · show |ops.sin (t / 1000 / 2.5) * 10 +
      (if 0.9 < ops.sin (t / 1000 / 15) then ops.sin (t / 1000 * 6) * 15 else 0)| ≤ 30
    calc |ops.sin (t / 1000 / 2.5) * 10 +
        (if 0.9 < ops.sin (t / 1000 / 15) then ops.sin (t / 1000 * 6) * 15 else 0)|
        ≤ |ops.sin (t / 1000 / 2.5) * 10| +
          |(if 0.9 < ops.sin (t / 1000 / 15) then ops.sin (t / 1000 * 6) * 15 else 0)| :=
          abs_add _ _
      _ ≤ 10 + 15 :=
          add_le_add (abs_mul_sin_le _ _ (ops.sin_bound _) (by norm_num)) hnod
      _ ≤ 30 := by norm_num
  · show |ops.sin (t / 1000 / 2) * 15 +
      (if 0.9 < ops.sin (t / 1000 / 10) then ops.sin (t / 1000 * 5) * 20 else 0)| ≤ 40
    calc |ops.sin (t / 1000 / 2) * 15 +
        (if 0.9 < ops.sin (t / 1000 / 10) then ops.sin (t / 1000 * 5) * 20 else 0)|
        ≤ |ops.sin (t / 1000 / 2) * 15| +
          |(if 0.9 < ops.sin (t / 1000 / 10) then ops.sin (t / 1000 * 5) * 20 else 0)| :=
          abs_add _ _
      _ ≤ 15 + 20 :=
          add_le_add (abs_mul_sin_le _ _ (ops.sin_bound _) (by norm_num)) hglance
      _ ≤ 40 := by norm_num
  · show |ops.sin (t / 1000 / 4) * 5| ≤ 20
    exact le_trans (abs_mul_sin_le _ _ (ops.sin_bound _) (by norm_num)) (by norm_num)
  · show |ops.sin (t / 1000 / 3) * 0.1 + 0.1| ≤ 0.3
    calc |ops.sin (t / 1000 / 3) * 0.1 + 0.1|
        ≤ |ops.sin (t / 1000 / 3) * 0.1| + |(0.1 : ℚ)| := abs_add _ _
      _ ≤ 0.1 + 0.1 := by
          refine add_le_add (abs_mul_sin_le _ _ (ops.sin_bound _) (by norm_num)) ?_
          rw [abs_of_nonneg (by norm_num : (0 : ℚ) ≤ 0.1)]
      _ ≤ 0.3 := by norm_num

theorem leftArmAngleOf_bound (ops : MathOps) (pose : List (Option Keypoint))
    (t : ℚ) : |leftArmAngleOf ops pose t| ≤ 80 := by
  have hfall : |ops.sin (t / 1500) * 8| ≤ 80 :=
    le_trans (abs_mul_sin_le _ _ (ops.sin_bound _) (by norm_num)) (by norm_num)
  unfold leftArmAngleOf
  cases kpAt pose 7 with
  | none => exact hfall
  | some p7 =>
    cases kpAt pose 5 with
    | none => exact hfall
    | some p5 =>
      show |if 0.3 < p7.score ∧ 0.3 < p5.score
        then clampQ (-80) 80 (ops.atan2 (p7.y - p5.y) (p7.x - p5.x) * (180 / ops.pi))
        else ops.sin (t / 1500) * 8| ≤ 80
      split
      · exact abs_clampQ_le 80 _ (by norm_num)
      · exact hfall

theorem rightArmAngleOf_bound (ops : MathOps) (pose : List (Option Keypoint))
    (t : ℚ) : |rightArmAngleOf ops pose t| ≤ 80 := by
  have hfall : |(-(ops.sin (t / 1500) * 8))| ≤ 80 := by
    rw [abs_neg]
    exact le_trans (abs_mul_sin_le _ _ (ops.sin_bound _) (by norm_num)) (by norm_num)
  unfold rightArmAngleOf
  cases kpAt pose 8 with
  | none => exact hfall
  | some p8 =>
    cases kpAt pose 6 with
    | none => exact hfall
    | some p6 =>
      show |if 0.3 < p8.score ∧ 0.3 < p6.score
        then clampQ (-80) 80 (ops.atan2 (p8.y - p6.y) (p8.x - p6.x) * (180 / ops.pi))
        else -(ops.sin (t / 1500) * 8)| ≤ 80
      split
      · exact abs_clampQ_le 80 _ (by norm_num)
      · exact hfall

theorem leftForearmAngleOf_bound (ops : MathOps) (pose : List (Option Keypoint))
    (t : ℚ) : |leftForearmAngleOf ops pose t| ≤ 90 := by
  have hz : |(0 : ℚ)| ≤ 90 := by norm_num
  unfold leftForearmAngleOf
  cases kpAt pose 7 with
  | none => exact hz
  | some p7 =>
    cases kpAt pose 5 with
    | none => exact hz
    | some p5 =>
      cases kpAt pose 9 with
      | none => exact hz
      | some p9 =>
        show |if 0.3 < p7.score ∧ 0.3 < p5.score ∧ 0.3 < p9.score
          then clampQ (-90) 90 (ops.atan2 (p9.y - p7.y) (p9.x - p7.x) * (180 / ops.pi)
            - leftArmAngleOf ops pose t)
          else 0| ≤ 90
        split
        · exact abs_clampQ_le 90 _ (by norm_num)
        · exact hz

theorem rightForearmAngleOf_bound (ops : MathOps) (pose : List (Option Keypoint))
    (t : ℚ) : |rightForearmAngleOf ops pose t| ≤ 90 := by
  have hz : |(0 : ℚ)| ≤ 90 := by norm_num
  unfold rightForearmAngleOf
  cases kpAt pose 8 with
  | none => exact hz
  | some p8 =>
    cases kpAt pose 6 with
    | none => exact hz
    | some p6 =>
      cases kpAt pose 10 with
      | none => exact hz
      | some p10 =>
        show |if 0.3 < p8.score ∧ 0.3 < p6.score ∧ 0.3 < p10.score
          then clampQ (-90) 90 (ops.atan2 (p10.y - p8.y) (p10.x - p8.x) * (180 / ops.pi)
            - rightArmAngleOf ops pose t)
          else 0| ≤ 90
        split
        · exact abs_clampQ_le 90 _ (by norm_num)
        · exact hz

theorem torsoRotationOf_bound (ops : MathOps) (pose : List (Option Keypoint)) :
    |torsoRotationOf ops pose| ≤ 20 := by
  have hz : |(0 : ℚ)| ≤ 20 := by norm_num
  unfold torsoRotationOf
  cases kpAt pose 5 with
  | none => exact hz
  | some p5 =>
    cases kpAt pose 6 with
    | none => exact hz
    | some p6 =>
      show |if 0.3 < p5.score ∧ 0.3 < p6.score
        then clampQ (-20) 20 (ops.atan2 (p6.y - p5.y) (p6.x - p5.x) * (180 / ops.pi))
        else 0| ≤ 20
      split
      · exact abs_clampQ_le 20 _ (by norm_num)
      · exact hz

/-- C5 counterexample: the claim fails for the published depth channel.  With
the configured smoothing level at its maximum slider value 0.95, the depth
channel is smoothed with effective base factor 0.95 + 0.1 = 1.05 > 1, so the
published lastFacePosition.z drifts outside its documented clamp range of
0.3: starting from the initial face state and feeding the pipeline 19
consecutive frames of a detected face object without keypoints (constant-one
trig), the published depth exceeds the bound in absolute value. -/
theorem c5_depth_escapes_clamp : ¬ |(faceTrace095 19).z| ≤ 0.3 := by
  norm_num [faceTrace095, processMediaPipeFaceStep, applyAdaptiveSmoothing,
    simulateFaceDetection, oneOps, faceZero, abs_of_nonneg, abs_of_nonpos,
    abs_of_neg, abs_of_pos]

/-- C5 as amended: every rotation channel written by updateAvatarBody stays
within its documented clamp range (upper arms within 80, forearms within 90,
torso within 20 degrees) on every frame provided the previous DOM values were
in range (they only matter for the early-return paths), for arbitrary real,
simulated or adversarial poses; and the published face pitch, yaw, roll and
depth channels stay within their clamp ranges (30, 40, 20, 0.3) on every
frame provided the configured smoothing level lies in the interval 0 to 0.9,
so that every effective smoothing factor (including the depth channel factor
level + 0.1) stays at most 1.  At level 0.95 the depth bound can be escaped,
as the counterexample shows.  The raw simulated face values are always in
range. -/
theorem c5_clamp_invariant_amended :
    (∀ (ops : MathOps) (cv : Canvas) (t : ℚ)
      (bodyPose : Option (List (Option Keypoint))) (refsReady : Bool)
      (d : AvatarDom), BodyDomInRange d →
      BodyDomInRange (updateAvatarBody ops cv t bodyPose refsReady d)) ∧
    (∀ (ops : MathOps) (vW vH t : ℚ) (face : Option FaceLandmarks)
      (level : ℚ) (last : FaceData), 0 ≤ level → level ≤ 0.9 →
      FaceInRange last →
      FaceInRange (processMediaPipeFaceStep ops vW vH t face level last)) ∧
    (∀ (ops : MathOps) (t : ℚ), FaceInRange (simulateFaceDetection ops t)) := by
  refine ⟨?_, ?_, fun ops t => simulateFaceDetection_inRange ops t⟩
  · intro ops cv t bodyPose refsReady d h
    cases bodyPose with
    | none => exact h
    | some pose =>
      simp only [updateAvatarBody]
      split
      · exact h
      · exact ⟨leftArmAngleOf_bound ops pose t, rightArmAngleOf_bound ops pose t,
          leftForearmAngleOf_bound ops pose t, rightForearmAngleOf_bound ops pose t,
          torsoRotationOf_bound ops pose⟩
  · intro ops vW vH t face level last h0 h1 hlast
    have hface : FaceInRange
        (match face with
         | some lm => (faceNormalize ops vW vH lm).data
         | none => simulateFaceDetection ops t) := by
      cases face with
      | some lm => exact faceNormalize_inRange ops vW vH lm
      | none => exact simulateFaceDetection_inRange ops t
    exact ⟨adaptive_abs_le 30 _ _ level hlast.1 hface.1 h0 (by linarith),
      adaptive_abs_le 40 _ _ level hlast.2.1 hface.2.1 h0 (by linarith),
      adaptive_abs_le 20 _ _ level hlast.2.2.1 hface.2.2.1 h0 (by linarith),
      adaptive_abs_le 0.3 _ _ (level + 0.1) hlast.2.2.2 hface.2.2.2
        (by linarith) (by linarith)⟩

theorem c5_witness :
    BodyDomInRange (updateAvatarBody zeroOps ⟨640, 480⟩ 0
      (some (List.replicate 5 none)) true domZero) ∧
    FaceInRange (processMediaPipeFaceStep zeroOps 640 480 0 none 0.5 faceZero) ∧
    FaceInRange (simulateFaceDetection zeroOps 0) :=
  ⟨c5_clamp_invariant_amended.1 zeroOps ⟨640, 480⟩ 0
      (some (List.replicate 5 none)) true domZero
      (by refine ⟨?_, ?_, ?_, ?_, ?_⟩ <;> norm_num [domZero]),
   c5_clamp_invariant_amended.2.1 zeroOps 640 480 0 none 0.5 faceZero
      (by norm_num) (by norm_num)
      (by refine ⟨?_, ?_, ?_, ?_⟩ <;> norm_num [faceZero]),
   c5_clamp_invariant_amended.2.2 zeroOps 0⟩

/-- C6 counterexample: on complete detection dropout (noDetection) the new
body state is the raw synthetic keypoint, not the 30-70 blend of synthetic
and last held values, at a concrete state where the two differ: with constant
zero trig, a 640 by 480 canvas, t = 0 and a previous keypoint at the origin,
the dropout path stores the synthetic nose keypoint (320, 140) while the
30-70 blend (as computed by the processing-error handler at the very same
state) stores (96, 42). -/
theorem c6_dropout_snaps :
    kpAt (bodyFallbackUpdate zeroOps ⟨640, 480⟩ 0 lastBodyOne .noDetection) 0 =
      some { x := 320, y := 140, score := 0.9 } ∧
    kpAt (bodyFallbackUpdate zeroOps ⟨640, 480⟩ 0 lastBodyOne .processingThrew) 0 =
      some { x := 96, y := 42, score := 0.9 } ∧
    (some { x := 320, y := 140, score := 0.9 } : Option Keypoint) ≠
      some { x := 96, y := 42, score := 0.9 } := by
  refine ⟨?_, ?_, ?_⟩
  · simp only [bodyFallbackUpdate, simulateBodyPose, kpAt, zeroOps,
      List.getD_cons_zero, Option.some.injEq, Keypoint.mk.injEq]
    norm_num
  · simp only [bodyFallbackUpdate, poseErrorUpdate, simulateBodyPose, kpAt,
      lastBodyOne, zeroOps, List.mapIdx_cons, List.length_cons,
      List.length_nil, Nat.lt_add_one, if_pos, List.getD_cons_zero,
      List.getD_cons_succ, List.getD_nil, Option.some.injEq, Keypoint.mk.injEq]
    norm_num
  · intro h
    rw [Option.some.injEq, Keypoint.mk.injEq] at h
    norm_num at h

/-- C6 as amended: the fixed 30-70 blend between newly generated synthetic
values and the last held values is applied only by the error handlers inside
processMediaPipePose (per keypoint, wherever both the synthetic and the
previous keypoint are present) and processMediaPipeFace (per channel); on
complete detection dropout and on detector errors caught in processTracking
the new state snaps directly to the synthetic values. -/
theorem c6_blend_only_on_processing_error (ops : MathOps) (cv : Canvas) (t : ℚ)
    (last : List (Option Keypoint)) (lastF : FaceData) (i : ℕ) :
    kpAt (bodyFallbackUpdate ops cv t last .processingThrew) i =
      (match kpAt last i, kpAt (simulateBodyPose ops cv t) i with
       | some l, some k =>
         some { x := k.x * 0.3 + l.x * 0.7, y := k.y * 0.3 + l.y * 0.7,
                score := k.score }
       | _, _ => kpAt (simulateBodyPose ops cv t) i) ∧
    faceFallbackUpdate ops t lastF .processingThrew =
      { x := (simulateFaceDetection ops t).x * 0.3 + lastF.x * 0.7
        y := (simulateFaceDetection ops t).y * 0.3 + lastF.y * 0.7
        z := (simulateFaceDetection ops t).z * 0.3 + lastF.z * 0.7
        rx := (simulateFaceDetection ops t).rx * 0.3 + lastF.rx * 0.7
        ry := (simulateFaceDetection ops t).ry * 0.3 + lastF.ry * 0.7
        rz := (simulateFaceDetection ops t).rz * 0.3 + lastF.rz * 0.7 } ∧
    bodyFallbackUpdate ops cv t last .noDetection = simulateBodyPose ops cv t ∧
    bodyFallbackUpdate ops cv t last .detectorThrew = simulateBodyPose ops cv t ∧
    faceFallbackUpdate ops t lastF .noDetection = simulateFaceDetection ops t ∧
    faceFallbackUpdate ops t lastF .detectorThrew = simulateFaceDetection ops t := by
  refine ⟨?_, rfl, rfl, rfl, rfl, rfl⟩
  show kpAt (poseErrorUpdate ops cv t last) i = _
  unfold poseErrorUpdate
  rcases Nat.eq_zero_or_pos last.length with hlen | hlen
  · rw [if_neg (by omega)]
    rw [List.length_eq_zero] at hlen
    subst hlen
    have h0 : kpAt ([] : List (Option Keypoint)) i = none := by
      simp [kpAt]
    rw [h0]
  · rw [if_pos hlen]
    have hk : ∀ l2 : List (Option Keypoint), kpAt l2 i = (l2[i]?).getD none :=
      fun l2 => by simp [kpAt, List.getD_eq_getElem?_getD]
    simp only [hk, List.getElem?_mapIdx]
    cases hsim : (simulateBodyPose ops cv t)[i]? with
    | none => cases hlast : (last[i]?).getD (none : Option Keypoint) <;> rfl
    | some p =>
      cases hlast : (last[i]?).getD (none : Option Keypoint) with
      | none => rfl
      | some l => cases p <;> rfl

/-- C7: the session lifecycle is Idle to Active to Idle: startTracking on an
already active session changes nothing and starts no second loop, while
stopTracking from any state deactivates tracking, cancels any pending frame
callback and resets the avatar to its neutral pose. -/
theorem c7_lifecycle (videoWidth videoHeight : ℚ) (videoReady : Bool)
    (frame : Except Unit TrackerState) (nextId : ℕ) (s : SessionState) :
    (s.trackingActive = true →
      startTracking videoWidth videoHeight videoReady frame nextId s = s) ∧
    (stopTracking s).trackingActive = false ∧
    (stopTracking s).isTracking = false ∧
    (stopTracking s).animationFrameId = none ∧
    IsNeutralPose (stopTracking s).dom := by
  refine ⟨fun h => ?_, rfl, rfl, rfl, ?_⟩
  · simp [startTracking, h]
  · simp [stopTracking, resetAvatarPosition, IsNeutralPose]

theorem c7_witness :
    startTracking 640 480 true (.ok trackerZero) 9 sessionActive = sessionActive ∧
    IsNeutralPose (stopTracking sessionActive).dom :=
  ⟨(c7_lifecycle 640 480 true (.ok trackerZero) 9 sessionActive).1 rfl,
   (c7_lifecycle 640 480 true (.ok trackerZero) 9 sessionActive).2.2.2.2⟩

/-- C8: while the session is active, a tracking-loop pass always schedules the
next frame callback and never deactivates the session, whether the video was
not ready, the frame body succeeded, or the frame body raised an exception
that the loop boundary caught; and on an exception no new tracker state is
published for that frame. -/
theorem c8_loop_resilience (videoReady : Bool) (frame : Except Unit TrackerState)
    (nextId : ℕ) (s : SessionState) (hactive : s.trackingActive = true) :
    (trackingLoopStep videoReady frame nextId s).animationFrameId = some nextId ∧
    (trackingLoopStep videoReady frame nextId s).trackingActive = true ∧
    (∀ e, frame = .error e →
      (trackingLoopStep videoReady frame nextId s).tracker = s.tracker) := by
  refine ⟨?_, ?_, fun e he => ?_⟩
  · cases videoReady <;> cases frame <;> simp [trackingLoopStep, hactive]
  · cases videoReady <;> cases frame <;> simp [trackingLoopStep, hactive]
  · subst he
    cases videoReady <;> simp [trackingLoopStep, hactive]

theorem c8_witness :
    (trackingLoopStep true (.error ()) 3 sessionActive).animationFrameId = some 3 ∧
    (trackingLoopStep true (.error ()) 3 sessionActive).trackingActive = true ∧
    (trackingLoopStep true (.error ()) 3 sessionActive).tracker =
      sessionActive.tracker :=
  have h := c8_loop_resilience true (.error ()) 3 sessionActive rfl
  ⟨h.1, h.2.1, h.2.2 () rfl⟩

/-- C10: updateAvatarBody returns immediately, leaving every rig parameter
unchanged, whenever the pose is null, has fewer than 5 keypoints, or the arm
and torso SVG references are uninitialized. -/
theorem c10_early_return (ops : MathOps) (cv : Canvas) (t : ℚ)
    (bodyPose : Option (List (Option Keypoint))) (refsReady : Bool)
    (d : AvatarDom)
    (h : bodyPose = none ∨ (∃ pose, bodyPose = some pose ∧ pose.length < 5) ∨
      refsReady = false) :
    updateAvatarBody ops cv t bodyPose refsReady d = d := by
  rcases h with h | ⟨pose, hp, hlen⟩ | h
  · rw [h]; rfl
  · rw [hp]
    simp only [updateAvatarBody]
    rw [if_pos (Or.inl hlen)]
  · cases bodyPose with
    | none => rfl
    | some pose =>
      simp only [updateAvatarBody]
      rw [if_pos (Or.inr h)]

/-- C4: for every pose accepted by updateAvatarBody, the forearm anchor point
(the upper-arm rotation center, which is the shoulder attach point, plus the
forearm translation) equals exactly shoulder plus the unit vector of the
upper-arm angle (converted to radians) scaled by the upper segment length 80,
for both arms; the anchor is computed from the angle, never taken from a
detected position. -/
theorem c4_forearm_anchor (ops : MathOps) (cv : Canvas) (t : ℚ)
    (pose : List (Option Keypoint)) (d : AvatarDom) (h5 : 5 ≤ pose.length) :
    ((updateAvatarBody ops cv t (some pose) true d).leftUpperArmCx +
        (updateAvatarBody ops cv t (some pose) true d).leftForearmTranslate.1,
      (updateAvatarBody ops cv t (some pose) true d).leftUpperArmCy +
        (updateAvatarBody ops cv t (some pose) true d).leftForearmTranslate.2) =
      ((updateAvatarBody ops cv t (some pose) true d).leftUpperArmCx +
        ops.cos ((updateAvatarBody ops cv t (some pose) true d).leftUpperArmAngle
          * ops.pi / 180) * 80,
      (updateAvatarBody ops cv t (some pose) true d).leftUpperArmCy +
        ops.sin ((updateAvatarBody ops cv t (some pose) true d).leftUpperArmAngle
          * ops.pi / 180) * 80) ∧
    ((updateAvatarBody ops cv t (some pose) true d).rightUpperArmCx +
        (updateAvatarBody ops cv t (some pose) true d).rightForearmTranslate.1,
      (updateAvatarBody ops cv t (some pose) true d).rightUpperArmCy +
        (updateAvatarBody ops cv t (some pose) true d).rightForearmTranslate.2) =
      ((updateAvatarBody ops cv t (some pose) true d).rightUpperArmCx +
        ops.cos ((updateAvatarBody ops cv t (some pose) true d).rightUpperArmAngle
          * ops.pi / 180) * 80,
      (updateAvatarBody ops cv t (some pose) true d).rightUpperArmCy +
        ops.sin ((updateAvatarBody ops cv t (some pose) true d).rightUpperArmAngle
          * ops.pi / 180) * 80) := by
  have hguard : ¬ (pose.length < 5 ∨ (true = false)) := by
    simp
    omega
  simp only [updateAvatarBody]
  rw [if_neg hguard]
  constructor <;>
    simp only [Prod.mk.injEq] <;>
    constructor <;>
    ring

theorem c4_witness :
    ((updateAvatarBody zeroOps ⟨640, 480⟩ 0 (some (List.replicate 5 none)) true
        domZero).leftUpperArmCx +
      (updateAvatarBody zeroOps ⟨640, 480⟩ 0 (some (List.replicate 5 none)) true
        domZero).leftForearmTranslate.1,
     (updateAvatarBody zeroOps ⟨640, 480⟩ 0 (some (List.replicate 5 none)) true
        domZero).leftUpperArmCy +
      (updateAvatarBody zeroOps ⟨640, 480⟩ 0 (some (List.replicate 5 none)) true
        domZero).leftForearmTranslate.2) =
    ((updateAvatarBody zeroOps ⟨640, 480⟩ 0 (some (List.replicate 5 none)) true
        domZero).leftUpperArmCx +
      zeroOps.cos ((updateAvatarBody zeroOps ⟨640, 480⟩ 0
        (some (List.replicate 5 none)) true domZero).leftUpperArmAngle
          * zeroOps.pi / 180) * 80,
     (updateAvatarBody zeroOps ⟨640, 480⟩ 0 (some (List.replicate 5 none)) true
        domZero).leftUpperArmCy +
      zeroOps.sin ((updateAvatarBody zeroOps ⟨640, 480⟩ 0
        (some (List.replicate 5 none)) true domZero).leftUpperArmAngle
          * zeroOps.pi / 180) * 80) :=
  (c4_forearm_anchor zeroOps ⟨640, 480⟩ 0 (List.replicate 5 none) domZero
    (by norm_num)).1

/-- C9: body position channels are computed relative to the shoulder midpoint
only when both shoulder keypoints are present with confidence strictly above
0.3: in that case the written shoulder coordinates follow the
midpoint-relative formulas and the torso rotation follows the clamped
shoulder-line slope; when either shoulder is absent or at or below the
threshold, the SVG shoulder attributes keep their previous values, the torso
rotation is the default zero, and the arm rotation centers use the default
shoulder coordinates instead of the low-confidence data. -/
theorem c9_shoulder_gate (ops : MathOps) (cv : Canvas) (t : ℚ)
    (pose : List (Option Keypoint)) (d : AvatarDom) (h5 : 5 ≤ pose.length) :
    (∀ p5 p6 : Keypoint, kpAt pose 5 = some p5 → kpAt pose 6 = some p6 →
      0.3 < p5.score → 0.3 < p6.score →
      (updateAvatarBody ops cv t (some pose) true d).leftShoulderCx =
        -85 + ((p5.x - (p5.x + p6.x) / 2) / (|p6.x - p5.x| / 2)) * 40 ∧
      (updateAvatarBody ops cv t (some pose) true d).rightShoulderCx =
        85 + ((p6.x - (p5.x + p6.x) / 2) / (|p6.x - p5.x| / 2)) * 40 ∧
      (updateAvatarBody ops cv t (some pose) true d).leftShoulderCy =
        max 30 (min 80 (50 + (((p5.y + p6.y) / 2 - cv.height / 2) /
          (cv.height / 4)) * 30)) ∧
      (updateAvatarBody ops cv t (some pose) true d).rightShoulderCy =
        max 30 (min 80 (50 + (((p5.y + p6.y) / 2 - cv.height / 2) /
          (cv.height / 4)) * 30)) ∧
      (updateAvatarBody ops cv t (some pose) true d).upperBodyRot =
        clampQ (-20) 20 (ops.atan2 (p6.y - p5.y) (p6.x - p5.x) * (180 / ops.pi))) ∧
    ((kpAbove pose 5 0.3 = false ∨ kpAbove pose 6 0.3 = false) →
      (updateAvatarBody ops cv t (some pose) true d).leftShoulderCx =
        d.leftShoulderCx ∧
      (updateAvatarBody ops cv t (some pose) true d).rightShoulderCx =
        d.rightShoulderCx ∧
      (updateAvatarBody ops cv t (some pose) true d).leftShoulderCy =
        d.leftShoulderCy ∧
      (updateAvatarBody ops cv t (some pose) true d).rightShoulderCy =
        d.rightShoulderCy ∧
      (updateAvatarBody ops cv t (some pose) true d).upperBodyRot = 0 ∧
      (updateAvatarBody ops cv t (some pose) true d).leftUpperArmCx = -85 ∧
      (updateAvatarBody ops cv t (some pose) true d).rightUpperArmCx = 85 ∧
      (updateAvatarBody ops cv t (some pose) true d).leftUpperArmCy = 50 ∧
      (updateAvatarBody ops cv t (some pose) true d).rightUpperArmCy = 50) := by
  have hguard : ¬ (pose.length < 5 ∨ (true = false)) := by
    simp
    omega
  constructor
  · intro p5 p6 hk5 hk6 hs5 hs6
    have hsh : shoulderPlacementOf cv pose =
        { leftX := -85 + ((p5.x - (p5.x + p6.x) / 2) / (|p6.x - p5.x| / 2)) * 40,
          rightX := 85 + ((p6.x - (p5.x + p6.x) / 2) / (|p6.x - p5.x| / 2)) * 40,
          y := max 30 (min 80 (50 + (((p5.y + p6.y) / 2 - cv.height / 2) /
            (cv.height / 4)) * 30)),
          written := true } := by
      simp [shoulderPlacementOf, hk5, hk6, hs5, hs6]
    have htorso : torsoRotationOf ops pose =
        clampQ (-20) 20 (ops.atan2 (p6.y - p5.y) (p6.x - p5.x) * (180 / ops.pi)) := by
      simp [torsoRotationOf, hk5, hk6, hs5, hs6]
    simp only [updateAvatarBody]
    rw [if_neg hguard]
    simp [hsh, htorso]
  · intro hgate
    have hcond : ∀ q5 q6 : Keypoint, kpAt pose 5 = some q5 →
        kpAt pose 6 = some q6 → ¬ (0.3 < q5.score ∧ 0.3 < q6.score) := by
      intro q5 q6 h5q h6q hand
      rcases hgate with hg | hg
      · have htrue : kpAbove pose 5 0.3 = true := by
          simp [kpAbove, h5q, hand.1]
        rw [htrue] at hg
        cases hg
      · have htrue : kpAbove pose 6 0.3 = true := by
          simp [kpAbove, h6q, hand.2]
        rw [htrue] at hg
        cases hg
    have hsh : shoulderPlacementOf cv pose =
        { leftX := -85, rightX := 85, y := 50, written := false } := by
      unfold shoulderPlacementOf
      cases hk5 : kpAt pose 5 with
      | none => rfl
      | some q5 =>
        cases hk6 : kpAt pose 6 with
        | none => rfl
        | some q6 => simp [hcond q5 q6 hk5 hk6]
    have htorso : torsoRotationOf ops pose = 0 := by
      unfold torsoRotationOf
      cases hk5 : kpAt pose 5 with
      | none => rfl
      | some q5 =>
        cases hk6 : kpAt pose 6 with
        | none => rfl
        | some q6 => simp [hcond q5 q6 hk5 hk6]
    simp only [updateAvatarBody]
    rw [if_neg hguard]
    simp [hsh, htorso]

theorem c9_witness :
    ((updateAvatarBody zeroOps ⟨640, 480⟩ 0 (some posePass) true domZero).leftShoulderCx =
      -85 + ((200 - (200 + 400) / 2) / (|(400 : ℚ) - 200| / 2)) * 40 ∧
     (updateAvatarBody zeroOps ⟨640, 480⟩ 0 (some posePass) true domZero).rightShoulderCx =
      85 + ((400 - (200 + 400) / 2) / (|(400 : ℚ) - 200| / 2)) * 40 ∧
     (updateAvatarBody zeroOps ⟨640, 480⟩ 0 (some posePass) true domZero).leftShoulderCy =
      max 30 (min 80 (50 + (((100 + 120) / 2 - (480 : ℚ) / 2) / (480 / 4)) * 30)) ∧
     (updateAvatarBody zeroOps ⟨640, 480⟩ 0 (some posePass) true domZero).rightShoulderCy =
      max 30 (min 80 (50 + (((100 + 120) / 2 - (480 : ℚ) / 2) / (480 / 4)) * 30)) ∧
     (updateAvatarBody zeroOps ⟨640, 480⟩ 0 (some posePass) true domZero).upperBodyRot =
      clampQ (-20) 20 (zeroOps.atan2 (120 - 100) (400 - 200) * (180 / zeroOps.pi))) ∧
    ((updateAvatarBody zeroOps ⟨640, 480⟩ 0 (some (List.replicate 5 none)) true
        domZero).leftShoulderCx = domZero.leftShoulderCx ∧
     (updateAvatarBody zeroOps ⟨640, 480⟩ 0 (some (List.replicate 5 none)) true
        domZero).rightShoulderCx = domZero.rightShoulderCx ∧
     (updateAvatarBody zeroOps ⟨640, 480⟩ 0 (some (List.replicate 5 none)) true
        domZero).leftShoulderCy = domZero.leftShoulderCy ∧
     (updateAvatarBody zeroOps ⟨640, 480⟩ 0 (some (List.replicate 5 none)) true
        domZero).rightShoulderCy = domZero.rightShoulderCy ∧
     (updateAvatarBody zeroOps ⟨640, 480⟩ 0 (some (List.replicate 5 none)) true
        domZero).upperBodyRot = 0 ∧
     (updateAvatarBody zeroOps ⟨640, 480⟩ 0 (some (List.replicate 5 none)) true
        domZero).leftUpperArmCx = -85 ∧
     (updateAvatarBody zeroOps ⟨640, 480⟩ 0 (some (List.replicate 5 none)) true
        domZero).rightUpperArmCx = 85 ∧
     (updateAvatarBody zeroOps ⟨640, 480⟩ 0 (some (List.replicate 5 none)) true
        domZero).leftUpperArmCy = 50 ∧
     (updateAvatarBody zeroOps ⟨640, 480⟩ 0 (some (List.replicate 5 none)) true
        domZero).rightUpperArmCy = 50) :=
  ⟨(c9_shoulder_gate zeroOps ⟨640, 480⟩ 0 posePass domZero
      (by simp [posePass])).1
      { x := 200, y := 100, score := 0.9 } { x := 400, y := 120, score := 0.9 }
      rfl rfl (by norm_num) (by norm_num),
   (c9_shoulder_gate zeroOps ⟨640, 480⟩ 0 (List.replicate 5 none) domZero
      (by simp)).2 (Or.inl rfl)⟩

theorem c10_witness :
    updateAvatarBody zeroOps ⟨640, 480⟩ 0 none true domZero = domZero :=
  c10_early_return zeroOps ⟨640, 480⟩ 0 none true domZero (Or.inl rfl)

end AvatarPipeline
